import Mathlib

/-!
Verification of the DNS record translation and synchronization layer of
a DigitalOcean DNS management service (src/app.py).

The development shallowly embeds the core logic of src/app.py:

* the paginated record fetcher (fetch_all_domain_records, lines 183 to 206),
* the decode step of the record listing (get_records, lines 780 to 803),
* the encode and validation step shared by create_record (lines 900 to 924)
  and update_record (lines 1048 to 1070),
* the id resolution used by update_record (lines 1029 to 1039) and
  delete_record (lines 1153 to 1163),
* the inline pagination loop of test_config (lines 661 to 682).

Strings manipulated by the record translator are modelled as lists of
characters.  Python semantics modelled explicitly: str.split with a
separator and a maxsplit bound, int() applied to a string (modelled for
an optional sign followed by decimal digits; whitespace trimming,
underscore separators and non-ASCII digits are not modelled, and no claim
depends on them), truthiness of strings, lists and integers, and string
formatting of None.  Exceptions raised inside a route handler are caught
by the blanket except clause of the handler and surface as a status 500
reply carrying the exception text; the model returns them as an explicit
exn outcome.  Network requests are modelled by an explicit trace of
provider calls.
-/

/-- A Python string, as a list of characters. -/
abbrev Str := List Char

/-- The character for a decimal digit value below ten. -/
def digitChar : Nat → Char
  | 0 => '0'
  | 1 => '1'
  | 2 => '2'
  | 3 => '3'
  | 4 => '4'
  | 5 => '5'
  | 6 => '6'
  | 7 => '7'
  | 8 => '8'
  | 9 => '9'
  | _ => '*'

/-- The decimal value of an ASCII digit character, if it is one. -/
def digitVal (c : Char) : Option Nat :=
  if c = '0' then some 0
  else if c = '1' then some 1
  else if c = '2' then some 2
  else if c = '3' then some 3
  else if c = '4' then some 4
  else if c = '5' then some 5
  else if c = '6' then some 6
  else if c = '7' then some 7
  else if c = '8' then some 8
  else if c = '9' then some 9
  else none

/-- Digits of a natural number, most significant first, prepended to an
accumulator.  The first argument is structural fuel; any fuel at least
the number being printed is enough. -/
def natDigitsAux : Nat → Nat → List Char → List Char
  | 0, _, acc => acc
  | _ + 1, 0, acc => acc
  | fuel + 1, n + 1, acc =>
    natDigitsAux fuel ((n + 1) / 10) (digitChar ((n + 1) % 10) :: acc)

/-- Decimal representation of a natural number, as Python str() prints it. -/
def natStr (n : Nat) : Str :=
  if n = 0 then ['0'] else natDigitsAux n n []

/-- Decimal representation of an integer, as the Python f-string
interpolation of an int prints it. -/
def intStr (i : Int) : Str :=
  if i < 0 then '-' :: natStr i.natAbs else natStr i.natAbs

/-- Accumulating decimal parser: consumes digit characters, failing on the
first character that is not an ASCII digit. -/
def parseNatAux : Str → Nat → Option Nat
  | [], acc => some acc
  | c :: rest, acc =>
    match digitVal c with
    | some d => parseNatAux rest (10 * acc + d)
    | none => none

/-- Parse a non-empty run of decimal digits. -/
def parseNatDigits (s : Str) : Option Nat :=
  match s with
  | [] => none
  | _ => parseNatAux s 0

/-- Model of the Python builtin int() applied to a string: an optional
sign followed by at least one decimal digit.  Returns none where int()
raises ValueError. -/
def pyParseInt (s : Str) : Option Int :=
  match s with
  | [] => none
  | c :: rest =>
    if c = '-' then (parseNatDigits rest).map (fun n => -(Int.ofNat n))
    else if c = '+' then (parseNatDigits rest).map Int.ofNat
    else (parseNatDigits (c :: rest)).map Int.ofNat

/-- Split a string at its first space character, when there is one. -/
def breakAtSpace : Str → Option (Str × Str)
  | [] => none
  | c :: rest =>
    if c = ' ' then some ([], rest)
    else (breakAtSpace rest).map (fun q => (c :: q.1, q.2))

/-- Model of the Python expression s.split(a single space, maxsplit):
split at space characters, at most the given number of times. -/
def pySplitSp : Nat → Str → List Str
  | 0, s => [s]
  | m + 1, s =>
    match breakAtSpace s with
    | none => [s]
    | some q => q.1 :: pySplitSp m q.2

/-- A DNS record in provider form, as one element of the domain_records
array returned by the DigitalOcean API.  Every field is optional because
the code reads each one with dict.get. -/
structure ProviderRecord where
  id : Option Int
  name : Option String
  rtype : Option String
  ttl : Option Int
  data : Option Str
  priority : Option Int
  weight : Option Int
  port : Option Int
deriving DecidableEq

/-- A page reply from the provider list endpoint: HTTP status, the
domain_records array, whether links.pages carries a next entry, and the
provider message used when the reply is an error. -/
structure PageResponse where
  status_code : Nat
  domain_records : List ProviderRecord
  hasNext : Bool
  message : String
deriving DecidableEq

/-- The loop of fetch_all_domain_records (src/app.py lines 189 to 204):
consume page replies in order, accumulating domain_records, until a page
has no next link; a page with status other than 200 aborts and is
returned instead, discarding the accumulator. -/
def fetchLoop : List PageResponse → List ProviderRecord →
    Option (List ProviderRecord) × Option PageResponse
  | [], acc => (some acc, none)
  | p :: rest, acc =>
    if p.status_code ≠ 200 then (none, some p)
    else if p.hasNext then fetchLoop rest (acc ++ p.domain_records)
    else (some (acc ++ p.domain_records), none)

/-- Model of fetch_all_domain_records (src/app.py lines 183 to 206),
applied to the sequence of page replies the provider would give to pages
one, two, three and so on. -/
def fetch_all_domain_records (pages : List PageResponse) :
    Option (List ProviderRecord) × Option PageResponse :=
  fetchLoop pages []

/-- The per_page constant of fetch_all_domain_records (src/app.py line 187). -/
def fetch_all_per_page : Nat := 200

/-- The loop of the inline pagination in test_config (src/app.py lines
666 to 682): same accumulation, and the pair returned is the accumulated
records together with the status of the last reply seen. -/
def testConfigLoop : List PageResponse → List ProviderRecord →
    List ProviderRecord × Option Nat
  | [], acc => (acc, none)
  | p :: rest, acc =>
    if p.status_code ≠ 200 then (acc, some p.status_code)
    else if p.hasNext then testConfigLoop rest (acc ++ p.domain_records)
    else (acc ++ p.domain_records, some 200)

/-- The per_page constant of the inline loop in test_config (src/app.py
line 663). -/
def test_config_per_page : Nat := 200

/-- Python string formatting of a value that may be None. -/
def pyStrOpt : Option Str → Str
  | some s => s
  | none => ['N', 'o', 'n', 'e']

/-- Python string formatting of an optional name. -/
def pyShowName : Option String → String
  | some s => s
  | none => "None"

/-- The values computation of the decode step in get_records (src/app.py
lines 790 to 801): MX formats priority and data into one string, SRV
formats priority, weight, port and data, every other type yields the bare
data when it is truthy and the empty list otherwise.  Missing numeric
fields default to zero via dict.get. -/
def decodeValues (r : ProviderRecord) : List Str :=
  if r.rtype = some "MX" then
    [intStr (r.priority.getD 0) ++ (' ' :: pyStrOpt r.data)]
  else if r.rtype = some "SRV" then
    [intStr (r.priority.getD 0) ++
      (' ' :: (intStr (r.weight.getD 0) ++
        (' ' :: (intStr (r.port.getD 0) ++ (' ' :: pyStrOpt r.data)))))]
  else
    match r.data with
    | none => []
    | some s => if s = [] then [] else [s]

/-- A DNS record in uniform form, as get_records returns it. -/
structure UniformRecord where
  name : Option String
  rtype : Option String
  ttl : Option Int
  id : Option Int
  fqdn : String
  values : List Str
deriving DecidableEq

/-- The per-record body of the decode loop in get_records (src/app.py
lines 781 to 803), including the fqdn derivation of line 787. -/
def decodeRecord (zone : String) (r : ProviderRecord) : UniformRecord :=
  ⟨r.name, r.rtype, r.ttl, r.id,
    if r.name = some "@" then zone else pyShowName r.name ++ "." ++ zone,
    decodeValues r⟩

/-- The decode loop of get_records: records start empty and each provider
record appends one decoded record. -/
def get_records_loop (zone : String) :
    List ProviderRecord → List UniformRecord → List UniformRecord
  | [], acc => acc
  | r :: rest, acc => get_records_loop zone rest (acc ++ [decodeRecord zone r])

/-- The full decode step of get_records over a fetched record list. -/
def get_records_decode (zone : String) (rs : List ProviderRecord) :
    List UniformRecord :=
  get_records_loop zone rs []

/-- Outcome of the per-type encode and validation dispatch shared by
create_record and update_record: ok carries the provider-form fields
written into record_data, badRequest is a jsonify error with status 400,
and exn is an uncaught Python exception that the blanket handler turns
into a status 500 reply. -/
inductive EncodeOutcome
  | ok (priority weight port : Option Int) (data : Str)
  | badRequest (msg : String)
  | exn (msg : String)
deriving DecidableEq

/-- The text of the ValueError raised by int() on a non-integer string. -/
def intErrMsg (s : Str) : String :=
  "invalid literal for int() with base 10: " ++ String.mk s

/-- The per-type dispatch of create_record (src/app.py lines 901 to 924),
textually repeated in update_record (lines 1049 to 1070): scalar types
take values[0] as data after the CNAME cardinality check, MX splits
values[0] once at a space into priority and exchange, SRV splits it three
times into priority, weight, port and target, and any other type is
rejected.  int() failures surface as exn, matching the uncaught
ValueError. -/
def encodeValues (record_type : String) (values : List Str) : EncodeOutcome :=
  if record_type = "A" ∨ record_type = "AAAA" ∨ record_type = "CNAME" ∨
      record_type = "TXT" ∨ record_type = "NS" then
    if 1 < values.length ∧ record_type = "CNAME" then
      .badRequest "CNAME records can only have one value"
    else
      match values with
      | [] => .exn "list index out of range"
      | v :: _ => .ok none none none v
  else if record_type = "MX" then
    match values with
    | [] => .exn "list index out of range"
    | v :: _ =>
      match pySplitSp 1 v with
      | [a, b] =>
        match pyParseInt a with
        | some p => .ok (some p) none none b
        | none => .exn (intErrMsg a)
      | _ => .badRequest "MX record must be in format: \"priority exchange\""
  else if record_type = "SRV" then
    match values with
    | [] => .exn "list index out of range"
    | v :: _ =>
      match pySplitSp 3 v with
      | [a, b, c, d] =>
        match pyParseInt a with
        | none => .exn (intErrMsg a)
        | some p =>
          match pyParseInt b with
          | none => .exn (intErrMsg b)
          | some w =>
            match pyParseInt c with
            | none => .exn (intErrMsg c)
            | some po => .ok (some p) (some w) (some po) d
      | _ =>
        .badRequest "SRV record must be in format: \"priority weight port target\""
  else .badRequest ("Unsupported record type: " ++ record_type)

/-- The record_data body submitted to the provider on create or update. -/
structure RecordOut where
  rtype : String
  name : String
  ttl : Int
  priority : Option Int
  weight : Option Int
  port : Option Int
  data : Str
deriving DecidableEq

/-- A record id as delete_record holds it: the query parameter is a
string, an id found by the record scan is an integer. -/
inductive IdVal
  | str (s : String)
  | int (i : Int)
deriving DecidableEq

/-- One outbound provider call, in order of issue. -/
inductive NetworkCall
  | fetchRecords
  | createCall (record_data : RecordOut)
  | updateCall (record_id : Int) (record_data : RecordOut)
  | deleteCall (record_id : Option IdVal)
deriving DecidableEq

/-- The JSON body of a create request; absent keys are none, and
dict.get supplies the defaults the code uses. -/
structure CreateBody where
  name : Option String
  rtype : Option String
  ttl : Option Int
  values : Option (List Str)

/-- The JSON body of an update request. -/
structure UpdateBody where
  ttl : Option Int
  values : Option (List Str)
  id : Option Int

/-- Python truthiness of an optional string: None and the empty string
are falsy. -/
def pyFalsyS : Option String → Bool
  | none => true
  | some s => s == ""

/-- Python truthiness of an optional integer: None and zero are falsy. -/
def pyFalsyId : Option Int → Bool
  | none => true
  | some i => i == 0

/-- Python truthiness of the record id held by delete_record. -/
def pyFalsyIdV : Option IdVal → Bool
  | none => true
  | some (.str s) => s == ""
  | some (.int i) => i == 0

/-- The id scan of update_record (src/app.py lines 1033 to 1036) and
delete_record (lines 1157 to 1160): the first record matching the
requested name and type supplies its id, otherwise the id the caller
supplied is kept. -/
def resolveId (recs : List ProviderRecord) (nm rt : String)
    (cur : Option Int) : Option Int :=
  match recs with
  | [] => cur
  | r :: rest =>
    if r.name = some nm ∧ r.rtype = some rt then r.id
    else resolveId rest nm rt cur

/-- The id scan as delete_record holds it, producing an IdVal. -/
def resolveIdV (recs : List ProviderRecord) (nm rt : String)
    (cur : Option IdVal) : Option IdVal :=
  match recs with
  | [] => cur
  | r :: rest =>
    if r.name = some nm ∧ r.rtype = some rt then r.id.map IdVal.int
    else resolveIdV rest nm rt cur

/-- Model of create_record (src/app.py lines 880 to 936): the reply is a
status and message pair, paired with the trace of provider calls issued.
postStatus and postMsg model the provider reply to the POST. -/
def create_record (body : CreateBody) (cfgComplete : Bool)
    (postStatus : Nat) (postMsg : String) : (Nat × String) × List NetworkCall :=
  let record_name := body.name
  let record_type := body.rtype
  let ttl := body.ttl.getD 3600
  let values := body.values.getD []
  if pyFalsyS record_name || pyFalsyS record_type || values.isEmpty then
    ((400, "Missing required fields: name, type, values"), [])
  else if cfgComplete = false then
    ((400, "DigitalOcean configuration is incomplete."), [])
  else
    match encodeValues (record_type.getD "") values with
    | .badRequest m => ((400, m), [])
    | .exn m => ((500, m), [])
    | .ok p w po d =>
      let rd : RecordOut := ⟨record_type.getD "", record_name.getD "", ttl, p, w, po, d⟩
      let calls := [NetworkCall.createCall rd]
      if postStatus = 200 ∨ postStatus = 201 then
        ((201, "Record created successfully"), calls)
      else ((postStatus, "Failed to create record: " ++ postMsg), calls)

/-- The id resolution step of update_record (src/app.py lines 1029 to
1036): when the supplied id is falsy, fetch the full record set and scan
it; a failed fetch leaves the id unchanged, and the fetch call is traced
either way. -/
def update_resolve (id0 : Option Int) (nm rt : String)
    (pages : List PageResponse) : Option Int × List NetworkCall :=
  if pyFalsyId id0 then
    match (fetch_all_domain_records pages).1 with
    | some recs => (resolveId recs nm rt id0, [NetworkCall.fetchRecords])
    | none => (id0, [NetworkCall.fetchRecords])
  else (id0, [])

/-- The remainder of update_record after id resolution (src/app.py lines
1038 to 1079): the not-found reply when the resolved id is still falsy,
then the per-type dispatch, then the PUT. -/
def update_finish (rt nm : String) (ttl : Int) (values : List Str)
    (resolved : Option Int × List NetworkCall) (putStatus : Nat)
    (putMsg : String) : (Nat × String) × List NetworkCall :=
  if pyFalsyId resolved.1 then
    ((404, "Record " ++ nm ++ " (" ++ rt ++ ") not found"), resolved.2)
  else
    match encodeValues rt values with
    | .badRequest m => ((400, m), resolved.2)
    | .exn m => ((500, m), resolved.2)
    | .ok p w po d =>
      let rd : RecordOut := ⟨rt, nm, ttl, p, w, po, d⟩
      let calls := resolved.2 ++ [NetworkCall.updateCall (resolved.1.getD 0) rd]
      if putStatus = 200 then ((200, "Record updated successfully"), calls)
      else ((putStatus, "Failed to update record: " ++ putMsg), calls)

/-- Model of update_record (src/app.py lines 1016 to 1082): rt and nm are
the path parameters, pages the provider replies to the paginated fetch of
id resolution, putStatus and putMsg the provider reply to the PUT. -/
def update_record (rt nm : String) (body : UpdateBody) (cfgComplete : Bool)
    (pages : List PageResponse) (putStatus : Nat) (putMsg : String) :
    (Nat × String) × List NetworkCall :=
  let ttl := body.ttl.getD 3600
  let values := body.values.getD []
  if values.isEmpty then
    ((400, "Missing required field: values"), [])
  else if cfgComplete = false then
    ((400, "DigitalOcean configuration is incomplete."), [])
  else
    update_finish rt nm ttl values (update_resolve body.id nm rt pages)
      putStatus putMsg

/-- Model of delete_record (src/app.py lines 1146 to 1175): qid is the id
query parameter, delStatus and delMsg the provider reply to the DELETE. -/
def delete_record (rt nm : String) (qid : Option String) (cfgComplete : Bool)
    (pages : List PageResponse) (delStatus : Nat) (delMsg : String) :
    (Nat × String) × List NetworkCall :=
  if cfgComplete = false then
    ((400, "DigitalOcean configuration is incomplete."), [])
  else
    let rid0 : Option IdVal := qid.map IdVal.str
    let resolved : Option IdVal × List NetworkCall :=
      if pyFalsyIdV rid0 then
        match (fetch_all_domain_records pages).1 with
        | some recs => (resolveIdV recs nm rt rid0, [NetworkCall.fetchRecords])
        | none => (rid0, [NetworkCall.fetchRecords])
      else (rid0, [])
    if pyFalsyIdV resolved.1 then
      ((404, "Record " ++ nm ++ " (" ++ rt ++ ") not found"), resolved.2)
    else
      let calls := resolved.2 ++ [NetworkCall.deleteCall resolved.1]
      if delStatus = 204 then ((200, "Record deleted successfully"), calls)
      else ((delStatus, "Failed to delete record: " ++ delMsg), calls)

/-- A sample A record, as the provider would return it. -/
def recA : ProviderRecord :=
  ⟨some 101, some "www", some "A", some 3600, some ("1.2.3.4".toList), none, none, none⟩

/-- A sample TXT record at the zone apex. -/
def recTxt : ProviderRecord :=
  ⟨some 102, some "@", some "TXT", some 300, some ("hello".toList), none, none, none⟩

/-- A sample MX record for the name mail. -/
def recMailMx : ProviderRecord :=
  ⟨some 103, some "mail", some "MX", some 3600, some ("old.example.com".toList),
    some 5, none, none⟩

/-- A provider record of type MX with every other field absent. -/
def recMxBare : ProviderRecord :=
  ⟨none, none, some "MX", none, none, none, none, none⟩

/-- A successful first page that links to a next page. -/
def pageOk1 : PageResponse := ⟨200, [recA], true, ""⟩

/-- A successful final page. -/
def pageOk2 : PageResponse := ⟨200, [recTxt], false, ""⟩

/-- A successful single page holding the sample MX record. -/
def pageMail : PageResponse := ⟨200, [recMailMx], false, ""⟩

/-- A failing page reply. -/
def pageFail : PageResponse := ⟨500, [recA], true, "Internal Error"⟩

/-! ### Printing and parsing of integers -/

lemma digitVal_digitChar {d : Nat} (h : d < 10) : digitVal (digitChar d) = some d := by
  interval_cases d <;> rfl

lemma digitChar_ne {d : Nat} (h : d < 10) :
    digitChar d ≠ ' ' ∧ digitChar d ≠ '-' ∧ digitChar d ≠ '+' := by
  interval_cases d <;> exact ⟨by decide, by decide, by decide⟩

lemma natDigitsAux_eq : ∀ (fuel n : Nat), n ≤ fuel → ∀ acc,
    natDigitsAux fuel n acc = ((Nat.digits 10 n).reverse.map digitChar) ++ acc := by
  intro fuel
  induction fuel with
  | zero =>
    intro n hn acc
    interval_cases n
    simp [natDigitsAux]
  | succ f ih =>
    intro n hn acc
    cases n with
    | zero => simp [natDigitsAux]
    | succ m =>
      have hdiv : (m + 1) / 10 ≤ f := by
        have := Nat.div_lt_self (Nat.succ_pos m) (by norm_num : 1 < 10)
        omega
      rw [show natDigitsAux (f + 1) (m + 1) acc =
            natDigitsAux f ((m + 1) / 10) (digitChar ((m + 1) % 10) :: acc) from rfl]
      rw [ih _ hdiv]
      rw [Nat.digits_def' (by norm_num : 1 < 10) (Nat.succ_pos m)]
      simp [List.append_assoc]

lemma natStr_eq (n : Nat) (h : n ≠ 0) :
    natStr n = (Nat.digits 10 n).reverse.map digitChar := by
  rw [natStr, if_neg h, natDigitsAux_eq n n le_rfl, List.append_nil]

lemma natStr_chars (n : Nat) : ∀ c ∈ natStr n, ∃ d, d < 10 ∧ c = digitChar d := by
  by_cases h : n = 0
  · subst h
    intro c hc
    simp [natStr] at hc
    exact ⟨0, by norm_num, by rw [hc]; rfl⟩
  · rw [natStr_eq n h]
    intro c hc
    rw [List.mem_map] at hc
    obtain ⟨d, hd, hdc⟩ := hc
    exact ⟨d, Nat.digits_lt_base (by norm_num) (List.mem_reverse.mp hd), hdc.symm⟩

lemma natStr_no_space (n : Nat) : ' ' ∉ natStr n := by
  intro hmem
  obtain ⟨d, hd, hc⟩ := natStr_chars n ' ' hmem
  exact (digitChar_ne hd).1 hc.symm

lemma intStr_no_space (i : Int) : ' ' ∉ intStr i := by
  rw [intStr]
  split
  · intro h
    rcases List.mem_cons.mp h with h1 | h2
    · exact absurd h1 (by decide)
    · exact natStr_no_space _ h2
  · exact natStr_no_space _

lemma parseNatAux_digits : ∀ (ds : List Nat), (∀ d ∈ ds, d < 10) → ∀ a : Nat,
    parseNatAux (ds.map digitChar) a =
      some (ds.foldl (fun x d => 10 * x + d) a) := by
  intro ds
  induction ds with
  | nil => intro _ a; rfl
  | cons d t ih =>
    intro h a
    have hd : d < 10 := h d (List.mem_cons_self d t)
    simp only [List.map_cons, parseNatAux, digitVal_digitChar hd, List.foldl_cons]
    exact ih (fun x hx => h x (List.mem_cons_of_mem d hx)) (10 * a + d)

lemma foldl_reverse_ofDigits : ∀ (L : List Nat) (a : Nat),
    L.reverse.foldl (fun x d => 10 * x + d) a =
      a * 10 ^ L.length + Nat.ofDigits 10 L := by
  intro L
  induction L with
  | nil => intro a; simp
  | cons d t ih =>
    intro a
    simp only [List.reverse_cons, List.foldl_append, List.foldl_cons, List.foldl_nil,
      ih, List.length_cons, Nat.ofDigits_cons, Nat.cast_id]
    ring

lemma parseNat_natStr (n : Nat) : parseNatDigits (natStr n) = some n := by
  by_cases h : n = 0
  · subst h; rfl
  · have hrev : (Nat.digits 10 n).reverse ≠ [] := by
      simpa using Nat.digits_ne_nil_iff_ne_zero.mpr h
    obtain ⟨d0, ds, hds⟩ := List.exists_cons_of_ne_nil hrev
    have hlt : ∀ d ∈ (Nat.digits 10 n).reverse, d < 10 := fun d hd =>
      Nat.digits_lt_base (by norm_num) (List.mem_reverse.mp hd)
    have hval : (Nat.digits 10 n).reverse.foldl (fun x d => 10 * x + d) 0 = n := by
      rw [foldl_reverse_ofDigits, Nat.ofDigits_digits]
      ring
    rw [natStr_eq n h, hds, List.map_cons]
    simp only [parseNatDigits]
    rw [← List.map_cons, ← hds, parseNatAux_digits _ hlt 0, hval]

lemma pyParseInt_natStr (n : Nat) : pyParseInt (natStr n) = some (n : Int) := by
  obtain ⟨c, cs, hcons⟩ : ∃ c cs, natStr n = c :: cs := by
    by_cases h : n = 0
    · exact ⟨'0', [], by simp [natStr, h]⟩
    · rw [natStr_eq n h]
      have hrev : (Nat.digits 10 n).reverse ≠ [] := by
        simpa using Nat.digits_ne_nil_iff_ne_zero.mpr h
      obtain ⟨d0, ds, hds⟩ := List.exists_cons_of_ne_nil hrev
      exact ⟨digitChar d0, ds.map digitChar, by rw [hds]; rfl⟩
  obtain ⟨d, hd, hcd⟩ := natStr_chars n c (by rw [hcons]; exact List.mem_cons_self c cs)
  have h1 : ¬ c = '-' := by rw [hcd]; exact (digitChar_ne hd).2.1
  have h2 : ¬ c = '+' := by rw [hcd]; exact (digitChar_ne hd).2.2
  rw [hcons]
  simp only [pyParseInt, if_neg h1, if_neg h2]
  rw [← hcons, parseNat_natStr]
  rfl

lemma pyParseInt_intStr (i : Int) : pyParseInt (intStr i) = some i := by
  by_cases hi : i < 0
  · rw [intStr, if_pos hi]
    have h : pyParseInt ('-' :: natStr i.natAbs) =
        (parseNatDigits (natStr i.natAbs)).map (fun n => -(Int.ofNat n)) := by
      simp [pyParseInt]
    rw [h, parseNat_natStr, Option.map_some']
    congr 1
    rw [Int.ofNat_eq_natCast]
    omega
  · rw [intStr, if_neg hi, pyParseInt_natStr]
    congr 1
    omega

/-! ### Splitting at spaces -/

lemma breakAtSpace_none : ∀ (s : Str), ' ' ∉ s → breakAtSpace s = none := by
  intro s
  induction s with
  | nil => intro _; rfl
  | cons c t ih =>
    intro h
    have hc : ¬ c = ' ' := by
      intro hce
      apply h
      rw [← hce]
      exact List.mem_cons_self c t
    have ht : ' ' ∉ t := fun hm => h (List.mem_cons_of_mem c hm)
    simp [breakAtSpace, hc, ih ht]

lemma breakAtSpace_append : ∀ (a : Str) (b : Str), ' ' ∉ a →
    breakAtSpace (a ++ (' ' :: b)) = some (a, b) := by
  intro a
  induction a with
  | nil => intro b _; simp [breakAtSpace]
  | cons c t ih =>
    intro b h
    have hc : ¬ c = ' ' := by
      intro hce
      apply h
      rw [← hce]
      exact List.mem_cons_self c t
    have ht : ' ' ∉ t := fun hm => h (List.mem_cons_of_mem c hm)
    simp [breakAtSpace, hc, ih b ht]

lemma pySplitSp_two (a b : Str) (ha : ' ' ∉ a) :
    pySplitSp 1 (a ++ (' ' :: b)) = [a, b] := by
  simp [pySplitSp, breakAtSpace_append a b ha]

lemma pySplitSp_four (a b c d : Str) (ha : ' ' ∉ a) (hb : ' ' ∉ b) (hc : ' ' ∉ c) :
    pySplitSp 3 (a ++ (' ' :: (b ++ (' ' :: (c ++ (' ' :: d)))))) = [a, b, c, d] := by
  simp [pySplitSp, breakAtSpace_append _ _ ha, breakAtSpace_append _ _ hb,
    breakAtSpace_append _ _ hc]

/-! ### Loop lemmas -/

lemma get_records_loop_eq (zone : String) :
    ∀ (rs : List ProviderRecord) (acc : List UniformRecord),
      get_records_loop zone rs acc = acc ++ rs.map (decodeRecord zone) := by
  intro rs
  induction rs with
  | nil => intro acc; simp [get_records_loop]
  | cons r t ih => intro acc; simp [get_records_loop, ih]

lemma fetchLoop_ok :
    ∀ (pages : List PageResponse) (k : Nat) (acc : List ProviderRecord)
      (hk : k < pages.length),
      (∀ i (hi : i < k), (pages.get ⟨i, Nat.lt_trans hi hk⟩).status_code = 200 ∧
        (pages.get ⟨i, Nat.lt_trans hi hk⟩).hasNext = true) →
      (pages.get ⟨k, hk⟩).status_code = 200 →
      (pages.get ⟨k, hk⟩).hasNext = false →
      fetchLoop pages acc =
        (some (acc ++ ((pages.take (k + 1)).map PageResponse.domain_records).flatten),
          none) := by
  intro pages
  induction pages with
  | nil => intro k acc hk; simp at hk
  | cons p rest ih =>
    intro k acc hk hpre h200 hstop
    cases k with
    | zero =>
      have h200p : p.status_code = 200 := h200
      have hstopp : p.hasNext = false := hstop
      simp [fetchLoop, h200p, hstopp, List.flatten]
    | succ k =>
      have h0 := hpre 0 (Nat.succ_pos k)
      have h0s : p.status_code = 200 := h0.1
      have h0n : p.hasNext = true := h0.2
      have hk2 : k < rest.length := Nat.lt_of_succ_lt_succ hk
      have recres := ih k (acc ++ p.domain_records) hk2
        (fun i hi => hpre (i + 1) (Nat.succ_lt_succ hi)) h200 hstop
      simp [fetchLoop, h0s, h0n, recres, List.flatten, List.append_assoc]

lemma fetchLoop_fail :
    ∀ (pages : List PageResponse) (k : Nat) (acc : List ProviderRecord)
      (hk : k < pages.length),
      (∀ i (hi : i < k), (pages.get ⟨i, Nat.lt_trans hi hk⟩).status_code = 200 ∧
        (pages.get ⟨i, Nat.lt_trans hi hk⟩).hasNext = true) →
      (pages.get ⟨k, hk⟩).status_code ≠ 200 →
      fetchLoop pages acc = (none, some (pages.get ⟨k, hk⟩)) := by
  intro pages
  induction pages with
  | nil => intro k acc hk; simp at hk
  | cons p rest ih =>
    intro k acc hk hpre hfail
    cases k with
    | zero =>
      have hfailp : p.status_code ≠ 200 := hfail
      simp [fetchLoop, hfailp]
    | succ k =>
      have h0 := hpre 0 (Nat.succ_pos k)
      have h0s : p.status_code = 200 := h0.1
      have h0n : p.hasNext = true := h0.2
      have hk2 : k < rest.length := Nat.lt_of_succ_lt_succ hk
      have recres := ih k (acc ++ p.domain_records) hk2
        (fun i hi => hpre (i + 1) (Nat.succ_lt_succ hi)) hfail
      simp [fetchLoop, h0s, h0n, recres]

lemma testConfigLoop_ok :
    ∀ (pages : List PageResponse) (k : Nat) (acc : List ProviderRecord)
      (hk : k < pages.length),
      (∀ i (hi : i < k), (pages.get ⟨i, Nat.lt_trans hi hk⟩).status_code = 200 ∧
        (pages.get ⟨i, Nat.lt_trans hi hk⟩).hasNext = true) →
      (pages.get ⟨k, hk⟩).status_code = 200 →
      (pages.get ⟨k, hk⟩).hasNext = false →
      testConfigLoop pages acc =
        (acc ++ ((pages.take (k + 1)).map PageResponse.domain_records).flatten,
          some 200) := by
  intro pages
  induction pages with
  | nil => intro k acc hk; simp at hk
  | cons p rest ih =>
    intro k acc hk hpre h200 hstop
    cases k with
    | zero =>
      have h200p : p.status_code = 200 := h200
      have hstopp : p.hasNext = false := hstop
      simp [testConfigLoop, h200p, hstopp, List.flatten]
    | succ k =>
      have h0 := hpre 0 (Nat.succ_pos k)
      have h0s : p.status_code = 200 := h0.1
      have h0n : p.hasNext = true := h0.2
      have hk2 : k < rest.length := Nat.lt_of_succ_lt_succ hk
      have recres := ih k (acc ++ p.domain_records) hk2
        (fun i hi => hpre (i + 1) (Nat.succ_lt_succ hi)) h200 hstop
      simp [testConfigLoop, h0s, h0n, recres, List.flatten, List.append_assoc]

/-! ### Claims -/

/-- Claim C1: for every MX provider-form record with integer priority p and
exchange string d, decoding yields values equal to the one-element list
holding the priority and the data separated by a space, and encoding that
same string for an MX create or update reproduces exactly the
provider-form fields priority p and data d. -/
theorem c1_mx_roundtrip (zone : String) (r : ProviderRecord) (p : Int) (d : Str)
    (hr : r.rtype = some "MX") (hp : r.priority = some p) (hd : r.data = some d) :
    (decodeRecord zone r).values = [intStr p ++ (' ' :: d)]
    ∧ encodeValues "MX" [intStr p ++ (' ' :: d)] =
      EncodeOutcome.ok (some p) none none d := by
  constructor
  · simp [decodeRecord, decodeValues, hr, hp, hd, pyStrOpt]
  · have hsplit := pySplitSp_two (intStr p) d (intStr_no_space p)
    simp [encodeValues, hsplit, pyParseInt_intStr]

/-- Witness for claim C1 at a concrete MX record. -/
theorem c1_mx_roundtrip_witness :
    (decodeRecord "example.com" recMailMx).values =
      [intStr 5 ++ (' ' :: ("old.example.com".toList))]
    ∧ encodeValues "MX" [intStr 5 ++ (' ' :: ("old.example.com".toList))] =
      EncodeOutcome.ok (some 5) none none ("old.example.com".toList) :=
  c1_mx_roundtrip "example.com" recMailMx 5 ("old.example.com".toList) rfl rfl rfl

/-- Claim C5: for every SRV provider-form record with integer priority,
weight and port and target string t, decoding yields the single formatted
string, and encoding that string reproduces exactly the four
provider-form fields, with no splitting applied inside the target. -/
theorem c5_srv_roundtrip (zone : String) (r : ProviderRecord)
    (p w po : Int) (t : Str) (hr : r.rtype = some "SRV") (hp : r.priority = some p)
    (hw : r.weight = some w) (hpo : r.port = some po) (hd : r.data = some t) :
    (decodeRecord zone r).values =
      [intStr p ++ (' ' :: (intStr w ++ (' ' :: (intStr po ++ (' ' :: t)))))]
    ∧ encodeValues "SRV"
        [intStr p ++ (' ' :: (intStr w ++ (' ' :: (intStr po ++ (' ' :: t)))))] =
      EncodeOutcome.ok (some p) (some w) (some po) t := by
  constructor
  · simp [decodeRecord, decodeValues, hr, hp, hw, hpo, hd, pyStrOpt]
  · have hsplit := pySplitSp_four (intStr p) (intStr w) (intStr po) t
      (intStr_no_space p) (intStr_no_space w) (intStr_no_space po)
    simp [encodeValues, hsplit, pyParseInt_intStr]

/-- Witness for claim C5 at a concrete SRV record whose target contains a
space. -/
theorem c5_srv_roundtrip_witness :
    (decodeRecord "example.com"
        ⟨some 104, some "_sip._tcp", some "SRV", some 3600,
          some ("sip.example.com extra".toList), some 10, some 20, some 5060⟩).values =
      [intStr 10 ++ (' ' :: (intStr 20 ++ (' ' :: (intStr 5060 ++
        (' ' :: ("sip.example.com extra".toList))))))]
    ∧ encodeValues "SRV"
        [intStr 10 ++ (' ' :: (intStr 20 ++ (' ' :: (intStr 5060 ++
          (' ' :: ("sip.example.com extra".toList))))))] =
      EncodeOutcome.ok (some 10) (some 20) (some 5060)
        ("sip.example.com extra".toList) :=
  c5_srv_roundtrip "example.com" _ 10 20 5060 ("sip.example.com extra".toList)
    rfl rfl rfl rfl rfl

/-- Claim C8: for every provider-form record whose type is neither MX nor
SRV, the decoded values list is the one-element list holding data when
data is present and non-empty, and the empty list when data is absent,
null, or the empty string. -/
theorem c8_simple_decode (zone : String) (r : ProviderRecord)
    (h1 : r.rtype ≠ some "MX") (h2 : r.rtype ≠ some "SRV") :
    (∀ s, r.data = some s → s ≠ [] → (decodeRecord zone r).values = [s])
    ∧ ((r.data = none ∨ r.data = some []) → (decodeRecord zone r).values = []) := by
  constructor
  · intro s hs hne
    simp [decodeRecord, decodeValues, h1, h2, hs, hne]
  · intro hcase
    rcases hcase with hn | he
    · simp [decodeRecord, decodeValues, h1, h2, hn]
    · simp [decodeRecord, decodeValues, h1, h2, he]

/-- Witness for claim C8 at a TXT record with data and an A record with
absent data. -/
theorem c8_simple_decode_witness :
    (decodeRecord "example.com" recTxt).values = ["hello".toList]
    ∧ (decodeRecord "example.com"
        ⟨some 105, some "bare", some "A", some 60, none, none, none, none⟩).values = [] :=
  ⟨(c8_simple_decode "example.com" recTxt (by decide) (by decide)).1
      ("hello".toList) rfl (by decide),
    (c8_simple_decode "example.com"
        ⟨some 105, some "bare", some "A", some 60, none, none, none, none⟩
        (by decide) (by decide)).2 (Or.inl rfl)⟩

/-- Claim C9: every uniform record produced by the decode step of the
listing has a values list of length at most one; for MX and SRV records
the length is exactly one even when data and the numeric fields are
absent; and the listing emits exactly one uniform record per provider
record, in fetch order. -/
theorem c9_decode_invariant (zone : String) (rs : List ProviderRecord)
    (r : ProviderRecord) :
    (decodeRecord zone r).values.length ≤ 1
    ∧ ((r.rtype = some "MX" ∨ r.rtype = some "SRV") →
        (decodeRecord zone r).values.length = 1)
    ∧ get_records_decode zone rs = rs.map (decodeRecord zone) := by
  refine ⟨?_, ?_, ?_⟩
  · by_cases hmx : r.rtype = some "MX"
    · simp [decodeRecord, decodeValues, hmx]
    · by_cases hsrv : r.rtype = some "SRV"
      · simp [decodeRecord, decodeValues, hmx, hsrv]
      · cases hd : r.data with
        | none => simp [decodeRecord, decodeValues, hmx, hsrv, hd]
        | some s =>
          by_cases hs : s = []
          · simp [decodeRecord, decodeValues, hmx, hsrv, hd, hs]
          · simp [decodeRecord, decodeValues, hmx, hsrv, hd, hs]
  · intro hcase
    rcases hcase with hmx | hsrv
    · simp [decodeRecord, decodeValues, hmx]
    · simp [decodeRecord, decodeValues, hsrv]
  · rw [get_records_decode, get_records_loop_eq]
    simp

/-- Witness for claim C9 at an MX record with every optional field absent. -/
theorem c9_decode_invariant_witness :
    (decodeRecord "example.com" recMxBare).values.length ≤ 1
    ∧ (decodeRecord "example.com" recMxBare).values.length = 1
    ∧ get_records_decode "example.com" [recMxBare] =
        [decodeRecord "example.com" recMxBare] := by
  have h := c9_decode_invariant "example.com" [recMxBare] recMxBare
  exact ⟨h.1, h.2.1 (Or.inl rfl), by rw [h.2.2]; rfl⟩

/-- Claim C6: when every page up to the first page without a next link
returns status 200, the paginated fetcher returns the concatenation of
each page's domain_records in page order, stopping at that page; when the
first departing page returns a non-2xx status, the fetcher returns that
failing response and no records, discarding records accumulated from
earlier pages. -/
theorem c6_pagination (pages : List PageResponse) (k : Nat) (hk : k < pages.length)
    (hpre : ∀ i (hi : i < k), (pages.get ⟨i, Nat.lt_trans hi hk⟩).status_code = 200 ∧
      (pages.get ⟨i, Nat.lt_trans hi hk⟩).hasNext = true) :
    ((pages.get ⟨k, hk⟩).status_code = 200 → (pages.get ⟨k, hk⟩).hasNext = false →
      fetch_all_domain_records pages =
        (some (((pages.take (k + 1)).map PageResponse.domain_records).flatten), none))
    ∧ (¬ (200 ≤ (pages.get ⟨k, hk⟩).status_code ∧
          (pages.get ⟨k, hk⟩).status_code ≤ 299) →
      fetch_all_domain_records pages = (none, some (pages.get ⟨k, hk⟩))) := by
  constructor
  · intro h200 hstop
    rw [fetch_all_domain_records, fetchLoop_ok pages k [] hk hpre h200 hstop]
    simp
  · intro hfail
    have hne : (pages.get ⟨k, hk⟩).status_code ≠ 200 := by omega
    rw [fetch_all_domain_records]
    exact fetchLoop_fail pages k [] hk hpre hne

/-- Witness for claim C6: a two-page success run returns both pages in
order, and a failing first page is returned with no records. -/
theorem c6_pagination_witness :
    fetch_all_domain_records [pageOk1, pageOk2] = (some [recA, recTxt], none)
    ∧ fetch_all_domain_records [pageFail] = (none, some pageFail) := by
  constructor
  · have h := (c6_pagination [pageOk1, pageOk2] 1 (by decide)
      (by decide)).1 rfl rfl
    simpa [pageOk1, pageOk2] using h
  · exact (c6_pagination [pageFail] 0 (by decide)
      (fun i hi => absurd hi (Nat.not_lt_zero i))).2 (by decide)

/-- Claim C10: the inline pagination loop of the configuration test
accumulates, over any all-successful page sequence, exactly the ordered
record sequence that fetch_all_domain_records returns, and both use the
same per_page constant of 200. -/
theorem c10_testconfig_equiv (pages : List PageResponse) (k : Nat)
    (hk : k < pages.length)
    (hpre : ∀ i (hi : i < k), (pages.get ⟨i, Nat.lt_trans hi hk⟩).status_code = 200 ∧
      (pages.get ⟨i, Nat.lt_trans hi hk⟩).hasNext = true)
    (h200 : (pages.get ⟨k, hk⟩).status_code = 200)
    (hstop : (pages.get ⟨k, hk⟩).hasNext = false) :
    fetch_all_per_page = test_config_per_page
    ∧ (testConfigLoop pages []).1 =
        ((pages.take (k + 1)).map PageResponse.domain_records).flatten
    ∧ fetch_all_domain_records pages =
        (some (((pages.take (k + 1)).map PageResponse.domain_records).flatten),
          none) := by
  refine ⟨rfl, ?_, ?_⟩
  · rw [testConfigLoop_ok pages k [] hk hpre h200 hstop]
    simp
  · rw [fetch_all_domain_records, fetchLoop_ok pages k [] hk hpre h200 hstop]
    simp

/-- Witness for claim C10 at a concrete two-page success run. -/
theorem c10_testconfig_equiv_witness :
    fetch_all_per_page = test_config_per_page
    ∧ (testConfigLoop [pageOk1, pageOk2] []).1 = [recA, recTxt]
    ∧ fetch_all_domain_records [pageOk1, pageOk2] = (some [recA, recTxt], none) := by
  have h := c10_testconfig_equiv [pageOk1, pageOk2] 1 (by decide) (by decide) rfl rfl
  refine ⟨h.1, ?_, ?_⟩
  · have := h.2.1
    simpa [pageOk1, pageOk2] using this
  · have := h.2.2
    simpa [pageOk1, pageOk2] using this

/-! ### Trace lemmas for the mutating operations -/

lemma update_resolve_calls (id0 : Option Int) (nm rt : String)
    (pages : List PageResponse) :
    (update_resolve id0 nm rt pages).2 = [] ∨
    (update_resolve id0 nm rt pages).2 = [NetworkCall.fetchRecords] := by
  unfold update_resolve
  split
  · split
    · right; rfl
    · right; rfl
  · left; rfl

lemma update_finish_invalid (rt nm : String) (ttl : Int) (values : List Str)
    (resolved : Option Int × List NetworkCall) (putS : Nat) (putM : String)
    (m : String)
    (h : encodeValues rt values = EncodeOutcome.badRequest m ∨
      encodeValues rt values = EncodeOutcome.exn m) :
    (update_finish rt nm ttl values resolved putS putM).2 = resolved.2 := by
  unfold update_finish
  split
  · rfl
  · rcases h with h | h <;> rw [h]

lemma create_record_invalid_calls (body : CreateBody) (cfg : Bool) (pS : Nat)
    (pM : String) (m : String)
    (h : encodeValues (body.rtype.getD "") (body.values.getD []) =
        EncodeOutcome.badRequest m ∨
      encodeValues (body.rtype.getD "") (body.values.getD []) =
        EncodeOutcome.exn m) :
    (create_record body cfg pS pM).2 = [] := by
  simp only [create_record]
  split
  · rfl
  · split
    · rfl
    · rcases h with h | h <;> rw [h]

/-- Claim C7: every create or update with type CNAME and more than one
value fails with the CNAME cardinality condition instead of silently
truncating; with exactly one value, that value becomes the provider-form
data field. -/
theorem c7_cname_cardinality :
    (∀ vs : List Str, 1 < vs.length →
      encodeValues "CNAME" vs =
        EncodeOutcome.badRequest "CNAME records can only have one value")
    ∧ (∀ v : Str, encodeValues "CNAME" [v] = EncodeOutcome.ok none none none v)
    ∧ (∀ (nm : String) (v1 v2 : Str) (vs : List Str) (ttl? : Option Int)
        (pS : Nat) (pM : String), nm ≠ "" →
      create_record ⟨some nm, some "CNAME", ttl?, some (v1 :: v2 :: vs)⟩ true pS pM =
        ((400, "CNAME records can only have one value"), []))
    ∧ (∀ (nm : String) (v1 v2 : Str) (vs : List Str) (ttl? : Option Int) (i : Int)
        (pages : List PageResponse) (pS : Nat) (pM : String), i ≠ 0 →
      update_record "CNAME" nm ⟨ttl?, some (v1 :: v2 :: vs), some i⟩ true pages pS pM =
        ((400, "CNAME records can only have one value"), [])) := by
  have henc : ∀ (v1 v2 : Str) (vs : List Str),
      encodeValues "CNAME" (v1 :: v2 :: vs) =
        EncodeOutcome.badRequest "CNAME records can only have one value" := by
    intro v1 v2 vs
    unfold encodeValues
    rw [if_pos (by simp), if_pos ⟨by simp only [List.length_cons]; omega, rfl⟩]
  refine ⟨?_, ?_, ?_, ?_⟩
  · intro vs h
    rcases vs with _ | ⟨v1, vs⟩
    · simp at h
    rcases vs with _ | ⟨v2, vs⟩
    · simp at h
    exact henc v1 v2 vs
  · intro v
    unfold encodeValues
    rw [if_pos (by simp), if_neg (by simp)]
  · intro nm v1 v2 vs ttl? pS pM hnm
    have hb : pyFalsyS (some nm) = false := by simp [pyFalsyS, hnm]
    simp [create_record, hb, pyFalsyS, henc, hnm]
  · intro nm v1 v2 vs ttl? i pages pS pM hi
    have hid : pyFalsyId (some i) = false := by simp [pyFalsyId, hi]
    simp [update_record, update_resolve, update_finish, hid, henc]

/-- Witness for claim C7 at concrete CNAME requests. -/
theorem c7_cname_cardinality_witness :
    encodeValues "CNAME" ["a.example.com".toList, "b.example.com".toList] =
      EncodeOutcome.badRequest "CNAME records can only have one value"
    ∧ encodeValues "CNAME" ["a.example.com".toList] =
      EncodeOutcome.ok none none none ("a.example.com".toList)
    ∧ create_record
        ⟨some "alias", some "CNAME", none,
          some ["a.example.com".toList, "b.example.com".toList]⟩ true 201 "" =
      ((400, "CNAME records can only have one value"), [])
    ∧ update_record "CNAME" "alias"
        ⟨none, some ["a.example.com".toList, "b.example.com".toList], some 7⟩
        true [] 200 "" =
      ((400, "CNAME records can only have one value"), []) :=
  ⟨c7_cname_cardinality.1 ["a.example.com".toList, "b.example.com".toList]
      (by decide),
    c7_cname_cardinality.2.1 ("a.example.com".toList),
    c7_cname_cardinality.2.2.1 "alias" ("a.example.com".toList)
      ("b.example.com".toList) [] none 201 "" (by decide),
    c7_cname_cardinality.2.2.2 "alias" ("a.example.com".toList)
      ("b.example.com".toList) [] none 7 [] 200 "" (by decide)⟩

/-- Counterexample to claim C3: an update with no id and a malformed MX
values entry does issue the record-set fetch before the validation
failure is returned, so validation is not detected before every network
call. -/
theorem c3_fetch_before_validation :
    update_record "MX" "mail" ⟨none, some ["10".toList], none⟩ true [pageMail] 200 "" =
      ((400, "MX record must be in format: \"priority exchange\""),
        [NetworkCall.fetchRecords]) := by
  rfl

/-- Claim C3 as amended: create detects validation failures before any
provider call; update never issues the provider write on a validation
failure, but when no id is supplied the id-resolution fetch may precede
type-specific validation, so the trace of a failing update is at most the
single fetch call. -/
theorem c3_validation_amended :
    (∀ (body : CreateBody) (cfg : Bool) (pS : Nat) (pM : String) (m : String),
      (encodeValues (body.rtype.getD "") (body.values.getD []) =
          EncodeOutcome.badRequest m ∨
        encodeValues (body.rtype.getD "") (body.values.getD []) =
          EncodeOutcome.exn m) →
      (create_record body cfg pS pM).2 = [])
    ∧ (∀ (rt nm : String) (body : UpdateBody) (cfg : Bool)
        (pages : List PageResponse) (pS : Nat) (pM : String) (m : String),
      (encodeValues rt (body.values.getD []) = EncodeOutcome.badRequest m ∨
        encodeValues rt (body.values.getD []) = EncodeOutcome.exn m) →
      ((update_record rt nm body cfg pages pS pM).2 = [] ∨
        (update_record rt nm body cfg pages pS pM).2 = [NetworkCall.fetchRecords])) := by
  constructor
  · intro body cfg pS pM m h
    exact create_record_invalid_calls body cfg pS pM m h
  · intro rt nm body cfg pages pS pM m h
    by_cases hv : (body.values.getD []).isEmpty
    · left
      simp [update_record, hv]
    · by_cases hc : cfg = false
      · left
        simp [update_record, hv, hc]
      · have hmain : update_record rt nm body cfg pages pS pM =
            update_finish rt nm (body.ttl.getD 3600) (body.values.getD [])
              (update_resolve body.id nm rt pages) pS pM := by
          simp [update_record, hv, hc]
        rw [hmain, update_finish_invalid rt nm (body.ttl.getD 3600)
          (body.values.getD []) (update_resolve body.id nm rt pages) pS pM m h]
        exact update_resolve_calls body.id nm rt pages

/-- Witness for the amended claim C3: a create with a CNAME cardinality
violation makes no provider call, and an update with a malformed MX value
issues at most the fetch. -/
theorem c3_validation_amended_witness :
    (create_record
        ⟨some "alias", some "CNAME", none,
          some ["a.example.com".toList, "b.example.com".toList]⟩ true 201 "").2 = []
    ∧ ((update_record "MX" "mail" ⟨none, some ["10".toList], none⟩ true
          [pageMail] 200 "").2 = [] ∨
        (update_record "MX" "mail" ⟨none, some ["10".toList], none⟩ true
          [pageMail] 200 "").2 = [NetworkCall.fetchRecords]) :=
  ⟨c3_validation_amended.1
      ⟨some "alias", some "CNAME", none,
        some ["a.example.com".toList, "b.example.com".toList]⟩ true 201 ""
      "CNAME records can only have one value" (Or.inl rfl),
    c3_validation_amended.2 "MX" "mail" ⟨none, some ["10".toList], none⟩ true
      [pageMail] 200 ""
      "MX record must be in format: \"priority exchange\"" (Or.inl rfl)⟩

/-- Counterexample to claim C4: an MX create whose values entry splits
into two parts with a non-integer first part is answered with a generic
status 500 server error carrying the int() exception text, not a typed
validation or format condition. -/
theorem c4_nonint_is_generic_error :
    create_record ⟨some "mail", some "MX", none, some ["x mail.example.com".toList]⟩
        true 201 "" =
      ((500, "invalid literal for int() with base 10: x"), []) := by
  rfl

/-- Claim C4 as amended: an MX create or update whose values entry splits
into two parts with a non-integer first part, and an SRV create whose
values entry splits into four parts whose first three are not all
integers, fail with a generic status 500 server error carrying the int()
exception text rather than a typed format condition, and no provider
call is made when the id needs no resolution. -/
theorem c4_nonint_amended :
    (∀ (nm : String) (ttl? : Option Int) (v a b : Str) (pS : Nat) (pM : String),
      nm ≠ "" → pySplitSp 1 v = [a, b] → pyParseInt a = none →
      create_record ⟨some nm, some "MX", ttl?, some [v]⟩ true pS pM =
        ((500, intErrMsg a), []))
    ∧ (∀ (nm : String) (ttl? : Option Int) (v a b c d : Str) (pS : Nat)
        (pM : String), nm ≠ "" → pySplitSp 3 v = [a, b, c, d] →
      (pyParseInt a = none ∨ pyParseInt b = none ∨ pyParseInt c = none) →
      ((create_record ⟨some nm, some "SRV", ttl?, some [v]⟩ true pS pM).1.1 = 500 ∧
        (create_record ⟨some nm, some "SRV", ttl?, some [v]⟩ true pS pM).2 = []))
    ∧ (∀ (nm : String) (ttl? : Option Int) (v a b : Str) (i : Int)
        (pages : List PageResponse) (pS : Nat) (pM : String),
      i ≠ 0 → pySplitSp 1 v = [a, b] → pyParseInt a = none →
      update_record "MX" nm ⟨ttl?, some [v], some i⟩ true pages pS pM =
        ((500, intErrMsg a), [])) := by
  refine ⟨?_, ?_, ?_⟩
  · intro nm ttl? v a b pS pM hnm hsplit hpa
    have hb : pyFalsyS (some nm) = false := by simp [pyFalsyS, hnm]
    have henc : encodeValues "MX" [v] = EncodeOutcome.exn (intErrMsg a) := by
      simp [encodeValues, hsplit, hpa]
    simp [create_record, hb, pyFalsyS, hnm, henc]
  · intro nm ttl? v a b c d pS pM hnm hsplit h3
    have hb : pyFalsyS (some nm) = false := by simp [pyFalsyS, hnm]
    have henc : ∃ msg, encodeValues "SRV" [v] = EncodeOutcome.exn msg := by
      cases hpa : pyParseInt a with
      | none => exact ⟨intErrMsg a, by simp [encodeValues, hsplit, hpa]⟩
      | some p =>
        cases hpb : pyParseInt b with
        | none => exact ⟨intErrMsg b, by simp [encodeValues, hsplit, hpa, hpb]⟩
        | some w =>
          cases hpc : pyParseInt c with
          | none => exact ⟨intErrMsg c, by simp [encodeValues, hsplit, hpa, hpb, hpc]⟩
          | some po => rcases h3 with h | h | h <;> simp_all
    obtain ⟨msg, henc⟩ := henc
    constructor <;> simp [create_record, hb, pyFalsyS, hnm, henc]
  · intro nm ttl? v a b i pages pS pM hi hsplit hpa
    have hid : pyFalsyId (some i) = false := by simp [pyFalsyId, hi]
    have henc : encodeValues "MX" [v] = EncodeOutcome.exn (intErrMsg a) := by
      simp [encodeValues, hsplit, hpa]
    simp [update_record, update_resolve, update_finish, hid, henc]

/-- Witness for the amended claim C4 at concrete non-integer inputs. -/
theorem c4_nonint_amended_witness :
    create_record ⟨some "mail", some "MX", none, some ["x mail.example.com".toList]⟩
        true 201 "" = ((500, intErrMsg ("x".toList)), [])
    ∧ ((create_record
          ⟨some "srv", some "SRV", none, some ["1 y 3 host.example.com".toList]⟩
          true 201 "").1.1 = 500 ∧
        (create_record
          ⟨some "srv", some "SRV", none, some ["1 y 3 host.example.com".toList]⟩
          true 201 "").2 = [])
    ∧ update_record "MX" "mail" ⟨none, some ["x mail.example.com".toList], some 9⟩
        true [] 200 "" = ((500, intErrMsg ("x".toList)), []) :=
  ⟨c4_nonint_amended.1 "mail" none ("x mail.example.com".toList) ("x".toList)
      ("mail.example.com".toList) 201 "" (by decide) rfl rfl,
    c4_nonint_amended.2.1 "srv" none ("1 y 3 host.example.com".toList)
      ("1".toList) ("y".toList) ("3".toList) ("host.example.com".toList) 201 ""
      (by decide) rfl (Or.inr (Or.inl rfl)),
    c4_nonint_amended.2.2 "mail" none ("x mail.example.com".toList) ("x".toList)
      ("mail.example.com".toList) 9 [] 200 "" (by decide) rfl rfl⟩

/-- Claim C2 refuted by the code: when the caller supplies no id and the
paginated fetch fails, update_record and delete_record do not propagate
the fetch failure; the not-found reply is returned even though the fetch
never succeeded, because the error half of the fetch result is bound and
then ignored. -/
theorem c2_fetch_failure_not_propagated :
    update_record "A" "www" ⟨none, some ["1.2.3.4".toList], none⟩ true
        [pageFail] 200 "" =
      ((404, "Record www (A) not found"), [NetworkCall.fetchRecords])
    ∧ delete_record "A" "www" none true [pageFail] 204 "" =
      ((404, "Record www (A) not found"), [NetworkCall.fetchRecords]) := by
  constructor
  · rfl
  · rfl
